import Mathlib

/-!
Shallow embedding of the command dispatch loop and process supervisor of
src/main_controller.py, together with the path-resolution helper from
core/utils.py. Side effects (speech output, audit logging, process spawning,
sleeps, terminate/kill calls, os._exit) are recorded as an explicit trace of
events; the mutable global active_processes list is threaded as an explicit
registry value. The external collaborators (speech capture, speech synthesis,
logging) are opaque: only the calls made to them are recorded.
-/

namespace Drishtikon

/-- Observable side effects of the controller, in program order: console
prints, the speak collaborator (text to speech), the log collaborator,
subprocess.Popen, time.sleep (in milliseconds), Popen.terminate, Popen.kill,
the active_processes.clear() call, the cv2 window cleanup, and os._exit. -/
inductive Event where
  | print (msg : String)
  | speak (msg : String)
  | log (service subject msg : String)
  | spawn (target : String)
  | sleepMs (ms : Nat)
  | terminate (pid : Nat)
  | kill (pid : Nat)
  | clearRegistry
  | destroyAllWindows
  | exitProcess (code : Nat)
deriving DecidableEq, Repr

/-- Environment facts the controller consults: which resolved paths exist on
disk (os.path.exists), what subprocess.Popen does on a given target (some pid
on success, none when it raises, popenErr being the text of the exception),
how many 0.1 second poll iterations run before p.poll() stops returning None,
the exit status the child eventually reports (never inspected by the source,
which only compares poll() with None), and whether the cv2 import succeeds. -/
structure Env where
  pathExists : String → Bool
  popen : String → Option Nat
  popenErr : String
  pollsUntilExit : Nat
  childExitCode : Int
  cv2Available : Bool

/-- Project root from core/utils.py (BASE_DIR): the directory above core/.
Its concrete value depends on where the repository is checked out, so it is
modelled as an abstract constant string. -/
def BASE_DIR : String := "drishtikon"

/-- absolute_path from core/utils.py, restricted to the single-component form
main_controller.py uses: os.path.join of BASE_DIR and the relative path. -/
def absolute_path (rel : String) : String := BASE_DIR ++ "/" ++ rel

/-- Python substring containment, pat in s, on the underlying characters:
pat is a prefix of some suffix of s. -/
def containsSub (s pat : String) : Bool :=
  s.data.tails.any fun t => pat.data.isPrefixOf t

/-- Python str.lower(): lowercase every character. -/
def pyLower (s : String) : String := ⟨s.data.map Char.toLower⟩

/-- Python str.strip(): drop leading and trailing whitespace. -/
def pyStrip (s : String) : String :=
  ⟨((s.data.dropWhile Char.isWhitespace).reverse.dropWhile Char.isWhitespace).reverse⟩

/-- Events produced for one registered process by the kill_all_processes
loop body: p.terminate(), time.sleep(0.2), p.kill(). -/
def killOne (p : Nat) : List Event := [.terminate p, .sleepMs 200, .kill p]

/-- kill_all_processes from src/main_controller.py: iterates over a copy of
active_processes issuing terminate, a 200 ms sleep, then kill for each entry,
clears the registry, then attempts the cv2 window cleanup. Returns the new
registry (always empty) and the trace of effects. -/
def kill_all_processes (env : Env) (st : List Nat) : List Nat × List Event :=
  ([], [.print "[STOP] Killing all subprocesses..."]
        ++ st.flatMap killOne
        ++ [.clearRegistry]
        ++ (if env.cv2Available then [.destroyAllWindows] else [])
        ++ [.print "[STOP] All subprocesses terminated."])

/-- start_process from src/main_controller.py. The target is resolved with
absolute_path; a missing target speaks and logs without touching the
registry; a Popen failure is caught, logged and spoken with the registry
unchanged; on success the handle is appended, the loop sleeps 100 ms per
poll until the child terminates, and the handle is then removed again. -/
def start_process (env : Env) (st : List Nat) (relative_path : String) :
    List Nat × List Event :=
  let target := absolute_path relative_path
  if env.pathExists target = false then
    (st, [.speak ("Module " ++ relative_path ++ " not found."),
          .log "MAIN" relative_path "Missing module"])
  else
    match env.popen target with
    | some p =>
        ((st ++ [p]).erase p,
         .spawn target :: List.replicate env.pollsUntilExit (.sleepMs 100))
    | none =>
        (st, [.log "MAIN" relative_path ("Launch error: " ++ env.popenErr),
              .speak "Could not launch module."])

/-- emergency_stop from src/main_controller.py, the ESC hotkey callback:
prints, speaks, force-kills every subprocess via kill_all_processes, then
calls os._exit(0) as its final action. -/
def emergency_stop (env : Env) (st : List Nat) : List Nat × List Event :=
  ((kill_all_processes env st).1,
   [.print "[STOP] Emergency STOP triggered (ESC pressed)!",
    .speak "Stopping all modules."]
    ++ (kill_all_processes env st).2
    ++ [.exitProcess 0])

/-- Command intents of the dispatcher. -/
inductive Command where
  | startReading
  | startDetection
  | exitCmd
  | unknown
deriving DecidableEq, Repr

/-- Command classification as performed inline by main() in
src/main_controller.py: a falsy transcript (None or the empty string) is
skipped by the loop, otherwise the text is lowercased and stripped and
matched by substring containment in the source order: read, then detect or
object, then exit or quit, else unknown. -/
def classify (t : Option String) : Command :=
  match t with
  | none => .unknown
  | some c0 =>
    if c0.data.isEmpty then .unknown
    else
      let cmd := pyStrip (pyLower c0)
      if containsSub cmd "read" then .startReading
      else if containsSub cmd "detect" || containsSub cmd "object" then .startDetection
      else if containsSub cmd "exit" || containsSub cmd "quit" then .exitCmd
      else .unknown

/-- Classification as the specification words it: case-insensitive,
whitespace-trimmed substring matching against a fixed keyword table,
containment of read or reading giving StartReading, detect or object giving
StartDetection, exit or quit giving Exit, and anything else (null and the
empty string included) giving Unknown, earlier rules taking priority. -/
def classifySpec (t : Option String) : Command :=
  match t with
  | none => .unknown
  | some s =>
    let cmd := pyStrip (pyLower s)
    if containsSub cmd "read" || containsSub cmd "reading" then .startReading
    else if containsSub cmd "detect" || containsSub cmd "object" then .startDetection
    else if containsSub cmd "exit" || containsSub cmd "quit" then .exitCmd
    else .unknown

/-- Whether the dispatch loop continues to the next iteration or breaks. -/
inductive LoopResult where
  | continueLoop
  | stopped
deriving DecidableEq, Repr

/-- One iteration of the while loop in main() of src/main_controller.py,
given the transcript the listen collaborator returned: the new registry, the
trace of effects of this iteration, and whether the loop continues. -/
def loopStep (env : Env) (st : List Nat) (t : Option String) :
    List Nat × List Event × LoopResult :=
  match t with
  | none => (st, [], .continueLoop)
  | some c0 =>
    if c0.data.isEmpty then (st, [], .continueLoop)
    else
      let cmd := pyStrip (pyLower c0)
      let heard : List Event := [.print ("[MAIN] Heard: " ++ cmd)]
      if containsSub cmd "read" then
        ((start_process env st "reading/read.py").1,
         heard ++ [.speak "Opening reading module.",
                   .log "MAIN" "-" "Launch reading"]
               ++ (start_process env st "reading/read.py").2,
         .continueLoop)
      else if containsSub cmd "detect" || containsSub cmd "object" then
        ((start_process env st "yolo/detect.py").1,
         heard ++ [.speak "Opening object detection module.",
                   .log "MAIN" "-" "Launch YOLO"]
               ++ (start_process env st "yolo/detect.py").2,
         .continueLoop)
      else if containsSub cmd "exit" || containsSub cmd "quit" then
        ((kill_all_processes env st).1,
         heard ++ [.speak "Goodbye."] ++ (kill_all_processes env st).2,
         .stopped)
      else
        (st, heard ++ [.speak "I did not understand.",
                       .log "MAIN" "-" ("Unknown command: " ++ cmd)],
         .continueLoop)

/-- Whether a trace reached an os._exit call, which terminates the whole
process so that nothing later ever runs. -/
def reachedExit (tr : List Event) : Bool :=
  tr.any fun e => match e with | .exitProcess _ => true | _ => false

/-- Sequential processing of n firings of the ESC trigger by the keyboard
listener thread (the keyboard library runs hotkey callbacks one after the
other on that thread): each firing runs emergency_stop, and once a firing
reaches os._exit the process is gone and later firings never run. -/
def processTriggers (env : Env) : List Nat → Nat → List Nat × List Event
  | st, 0 => (st, [])
  | st, n + 1 =>
    if reachedExit (emergency_stop env st).2 then emergency_stop env st
    else
      ((processTriggers env (emergency_stop env st).1 n).1,
       (emergency_stop env st).2 ++ (processTriggers env (emergency_stop env st).1 n).2)

/-- Control state of the main thread running the dispatch loop: blocked in
the listen() call, blocked in the start_process poll loop while worker p
runs, at the top of the loop, or out of the loop after break. -/
inductive MainState where
  | blockedInListen
  | waitingOnWorker (p : Nat)
  | atLoopTop
  | stoppedState
deriving DecidableEq, Repr

/-- Whole-system state shared between the main thread and the keyboard
listener thread: the main thread control point, the shared active_processes
registry, and the exit status once os._exit has run. -/
structure Sys where
  mainSt : MainState
  registry : List Nat
  exited : Option Nat

/-- Exit status carried by the last os._exit event of a trace, if any. -/
def exitEvent? (tr : List Event) : Option Nat :=
  tr.foldl (fun acc e => match e with | .exitProcess c => some c | _ => acc) none

/-- Effect of one ESC firing on the whole two-thread system: the hotkey
callback runs on the keyboard listener thread, reads and clears the shared
registry and calls os._exit; it never reads or writes the main thread's
control state. -/
def emergencyInterrupt (env : Env) (s : Sys) : Sys × List Event :=
  ({ mainSt := s.mainSt,
     registry := (emergency_stop env s.registry).1,
     exited := exitEvent? (emergency_stop env s.registry).2 },
   (emergency_stop env s.registry).2)

/-- Modelled from Python semantics outside the repository: when main()
returns normally after the exit branch breaks the loop, the interpreter
terminates the process with status 0. -/
def graceful_exit_code : Nat := 0

/-- Events belonging to a worker termination sequence: the terminate and
kill calls issued to a handle. -/
def isTermination : Event → Bool
  | .terminate _ => true
  | .kill _ => true
  | _ => false

/-- Concrete environment for evaluation: every path exists, Popen returns
pid 2, the child needs three polls before it is seen dead, cv2 is absent. -/
def envA : Env :=
  { pathExists := fun _ => true
    popen := fun _ => some 2
    popenErr := ""
    pollsUntilExit := 3
    childExitCode := 0
    cv2Available := false }

/-- Concrete environment in which no path exists on disk. -/
def envMiss : Env :=
  { envA with pathExists := fun _ => false }

/-- Concrete environment in which Popen raises an OSError. -/
def envFail : Env :=
  { envA with popen := fun _ => none, popenErr := "OSError" }

example : classify (some "quit please") = Command.exitCmd := by decide

example : classify (some "READ this") = Command.startReading := by decide

example : start_process envA [1] "reading/read.py" =
    ([1], [Event.spawn "drishtikon/reading/read.py", Event.sleepMs 100,
           Event.sleepMs 100, Event.sleepMs 100]) := by decide

theorem isPrefixOf_append_left :
    ∀ (l₁ l₂ t : List Char), (l₁ ++ l₂).isPrefixOf t = true →
      l₁.isPrefixOf t = true := by
  intro l₁
  induction l₁ with
  | nil => intro l₂ t _; simp [List.isPrefixOf]
  | cons a as ih =>
    intro l₂ t h
    cases t with
    | nil => simp [List.isPrefixOf] at h
    | cons b bs =>
      simp only [List.cons_append, List.isPrefixOf] at h ⊢
      simp only [Bool.and_eq_true, beq_iff_eq] at h ⊢
      exact ⟨h.1, ih l₂ bs h.2⟩

theorem containsSub_read_of_reading (c : String)
    (h : containsSub c "reading" = true) : containsSub c "read" = true := by
  unfold containsSub at h ⊢
  rw [List.any_eq_true] at h ⊢
  obtain ⟨t, ht, hp⟩ := h
  exact ⟨t, ht, isPrefixOf_append_left "read".data ['i', 'n', 'g'] t hp⟩

theorem start_process_success (env : Env) (st : List Nat) (rel : String) (p : Nat)
    (hex : env.pathExists (absolute_path rel) = true)
    (hp : env.popen (absolute_path rel) = some p)
    (hfresh : p ∉ st) :
    start_process env st rel =
      (st, Event.spawn (absolute_path rel)
            :: List.replicate env.pollsUntilExit (Event.sleepMs 100)) := by
  simp only [start_process, hex, hp, Bool.true_eq_false, if_false]
  rw [List.erase_append_right _ (by simpa using hfresh), List.erase_cons_head,
    List.append_nil]

theorem count_terminate_flatMap (st : List Nat) (p : Nat) :
    (st.flatMap killOne).count (Event.terminate p) = st.count p := by
  induction st with
  | nil => rfl
  | cons q tl ih =>
    rw [List.flatMap_cons, List.count_append, ih]
    by_cases hpq : p = q
    · subst hpq; simp [killOne, List.count_cons, Nat.add_comm]
    · simp [killOne, List.count_cons, hpq, Ne.symm hpq]

theorem count_kill_flatMap (st : List Nat) (p : Nat) :
    (st.flatMap killOne).count (Event.kill p) = st.count p := by
  induction st with
  | nil => rfl
  | cons q tl ih =>
    rw [List.flatMap_cons, List.count_append, ih]
    by_cases hpq : p = q
    · subst hpq; simp [killOne, List.count_cons, Nat.add_comm]
    · simp [killOne, List.count_cons, hpq, Ne.symm hpq]

theorem count_exit_flatMap (st : List Nat) (c : Nat) :
    (st.flatMap killOne).count (Event.exitProcess c) = 0 := by
  induction st with
  | nil => rfl
  | cons q tl ih => rw [List.flatMap_cons, List.count_append, ih]; simp [killOne]

theorem count_terminate_killall (env : Env) (st : List Nat) (p : Nat) :
    (kill_all_processes env st).2.count (Event.terminate p) = st.count p := by
  by_cases hc : env.cv2Available <;>
    simp [kill_all_processes, hc, List.count_append, count_terminate_flatMap]

theorem count_kill_killall (env : Env) (st : List Nat) (p : Nat) :
    (kill_all_processes env st).2.count (Event.kill p) = st.count p := by
  by_cases hc : env.cv2Available <;>
    simp [kill_all_processes, hc, List.count_append, count_kill_flatMap]

theorem count_exit_killall (env : Env) (st : List Nat) (c : Nat) :
    (kill_all_processes env st).2.count (Event.exitProcess c) = 0 := by
  by_cases hc : env.cv2Available <;>
    simp [kill_all_processes, hc, List.count_append, count_exit_flatMap]

theorem kill_mem_killall (env : Env) (st : List Nat) (p : Nat) (hp : p ∈ st) :
    Event.kill p ∈ (kill_all_processes env st).2 := by
  have h1 : Event.kill p ∈ st.flatMap killOne :=
    List.mem_flatMap.mpr ⟨p, hp, by simp [killOne]⟩
  unfold kill_all_processes
  exact List.mem_append.mpr (Or.inl (List.mem_append.mpr (Or.inl
    (List.mem_append.mpr (Or.inl (List.mem_append.mpr (Or.inr h1)))))))

theorem killOne_flatMap_decomp (st : List Nat) (p : Nat) (hp : p ∈ st) :
    ∃ l r, st.flatMap killOne = l ++ killOne p ++ r := by
  induction st with
  | nil => cases hp
  | cons q tl ih =>
    rcases List.mem_cons.mp hp with rfl | hp'
    · exact ⟨[], tl.flatMap killOne, by simp⟩
    · obtain ⟨l, r, hl⟩ := ih hp'
      exact ⟨killOne q ++ l, r, by simp [hl, List.append_assoc]⟩

theorem count_terminate_emergency (env : Env) (st : List Nat) (p : Nat) :
    (emergency_stop env st).2.count (Event.terminate p) = st.count p := by
  simp [emergency_stop, List.count_append, List.count_cons,
    count_terminate_killall]

theorem count_kill_emergency (env : Env) (st : List Nat) (p : Nat) :
    (emergency_stop env st).2.count (Event.kill p) = st.count p := by
  simp [emergency_stop, List.count_append, List.count_cons, count_kill_killall]

theorem count_exit_emergency (env : Env) (st : List Nat) :
    (emergency_stop env st).2.count (Event.exitProcess 0) = 1 := by
  simp [emergency_stop, List.count_append, List.count_cons, count_exit_killall]

theorem last_emergency (env : Env) (st : List Nat) :
    (emergency_stop env st).2.getLast? = some (Event.exitProcess 0) :=
  List.getLast?_concat _

theorem reachedExit_emergency (env : Env) (st : List Nat) :
    reachedExit (emergency_stop env st).2 = true := by
  unfold reachedExit
  rw [List.any_eq_true]
  exact ⟨Event.exitProcess 0, by simp [emergency_stop], rfl⟩

theorem exitEvent_emergency (env : Env) (st : List Nat) :
    exitEvent? (emergency_stop env st).2 = some 0 := by
  simp [exitEvent?, emergency_stop, List.foldl_append]

/-- C4: classification, as performed inline by main(), is a pure total
function of the transcript: it agrees everywhere with the specification's
keyword table under the fixed priority order reading before detection before
exit, and maps null, the empty string and "banana" to Unknown. -/
theorem C4_classify_matches_spec :
    (∀ t, classify t = classifySpec t) ∧
    classify none = Command.unknown ∧
    classify (some "") = Command.unknown ∧
    classify (some "banana") = Command.unknown := by
  refine ⟨?_, rfl, by decide, by decide⟩
  intro t
  cases t with
  | none => rfl
  | some c0 =>
    by_cases he : c0.data.isEmpty = true
    · have hc0 : c0 = "" := by
        cases c0 with
        | mk d =>
          cases d with
          | nil => rfl
          | cons a as => simp at he
      subst hc0
      decide
    · have he' : c0.data.isEmpty = false := eq_false_of_ne_true he
      cases hr : containsSub (pyStrip (pyLower c0)) "read"
      · have hrg : containsSub (pyStrip (pyLower c0)) "reading" = false := by
          cases h2 : containsSub (pyStrip (pyLower c0)) "reading"
          · rfl
          · have h3 := containsSub_read_of_reading _ h2
            simp [hr] at h3
        simp [classify, classifySpec, he', hr, hrg]
      · simp [classify, classifySpec, he', hr]

/-- C1 counterexample: with handle 1 registered (non-empty registry) and an
existing target, start_process does not reject the call: its trace contains
the Popen spawn event; and with an empty registry it does block for the
worker's completion: the waiting polls are in the trace and the handle has
already been removed from the registry when the call returns. -/
theorem C1_counterexample_no_rejection :
    (start_process envA [1] "reading/read.py").2.contains
        (Event.spawn (absolute_path "reading/read.py")) = true ∧
    (start_process envA [] "reading/read.py").1 = [] ∧
    (start_process envA [] "reading/read.py").2.contains
        (Event.sleepMs 100) = true := by
  refine ⟨by decide, by decide, by decide⟩

/-- C1 amended: start_process performs no busy check and never rejects with
AlreadyRunning: whenever the target exists and Popen yields a fresh handle,
it spawns regardless of the registry contents, registers the handle, blocks
sleeping 100 ms per poll until the worker terminates, and removes the handle
again before returning, so the registry after the call equals the registry
before it and the call does block for the worker's completion. -/
theorem C1_amended_no_busy_check (env : Env) (st : List Nat) (rel : String)
    (p : Nat) (hex : env.pathExists (absolute_path rel) = true)
    (hp : env.popen (absolute_path rel) = some p) (hfresh : p ∉ st) :
    start_process env st rel =
      (st, Event.spawn (absolute_path rel)
            :: List.replicate env.pollsUntilExit (Event.sleepMs 100)) :=
  start_process_success env st rel p hex hp hfresh

theorem C1_amended_no_busy_check_witness :
    start_process envA [1] "reading/read.py" =
      ([1], Event.spawn (absolute_path "reading/read.py")
            :: List.replicate 3 (Event.sleepMs 100)) :=
  C1_amended_no_busy_check envA [1] "reading/read.py" 2 rfl rfl (by decide)

/-- C3: when a started worker reaches a terminal state, whatever its exit
status (the source never inspects it, so self-exit and crash act alike), its
handle is removed before start_process returns and no terminate or kill call
(no stopAll) appears in the trace: the registry returns to its prior
contents and holds no stale entry. -/
theorem C3_registry_no_stale_entry (env : Env) (st : List Nat) (rel : String)
    (p : Nat) (hex : env.pathExists (absolute_path rel) = true)
    (hp : env.popen (absolute_path rel) = some p) (hfresh : p ∉ st) :
    (start_process env st rel).1 = st ∧
    p ∉ (start_process env st rel).1 ∧
    ∀ e ∈ (start_process env st rel).2, isTermination e = false := by
  rw [start_process_success env st rel p hex hp hfresh]
  refine ⟨rfl, hfresh, ?_⟩
  intro e he
  rcases List.mem_cons.mp he with rfl | he'
  · rfl
  · rw [List.eq_of_mem_replicate he']; rfl

theorem C3_registry_no_stale_entry_witness :
    (start_process envA [] "reading/read.py").1 = [] ∧
    2 ∉ (start_process envA [] "reading/read.py").1 ∧
    ∀ e ∈ (start_process envA [] "reading/read.py").2, isTermination e = false :=
  C3_registry_no_stale_entry envA [] "reading/read.py" 2 rfl rfl (by decide)

/-- C6: launching a worker whose resolved target does not exist on disk
fails cleanly: the user is notified with a message naming the missing
module, the event is logged, the registry is untouched (an empty registry
stays empty), and every dispatch iteration classified as a start command
ends by continuing the loop. -/
theorem C6_missing_target_notfound (env : Env) (st : List Nat) (rel : String)
    (hmiss : env.pathExists (absolute_path rel) = false) :
    start_process env st rel =
      (st, [Event.speak ("Module " ++ rel ++ " not found."),
            Event.log "MAIN" rel "Missing module"]) ∧
    ∀ s : String, (classify (some s) = Command.startReading ∨
        classify (some s) = Command.startDetection) →
      (loopStep env st (some s)).2.2 = LoopResult.continueLoop := by
  constructor
  · simp [start_process, hmiss]
  · intro s hs
    by_cases he : s.data.isEmpty = true
    · simp [loopStep, he]
    · have he' : s.data.isEmpty = false := eq_false_of_ne_true he
      cases hr : containsSub (pyStrip (pyLower s)) "read"
      · cases hd : (containsSub (pyStrip (pyLower s)) "detect"
            || containsSub (pyStrip (pyLower s)) "object")
        · exfalso
          cases hq : (containsSub (pyStrip (pyLower s)) "exit"
              || containsSub (pyStrip (pyLower s)) "quit") <;>
            rcases hs with hs | hs <;>
              simp [classify, he', hr, hd, hq] at hs
        · simp [loopStep, he', hr, hd]
      · simp [loopStep, he', hr]

theorem C6_missing_target_notfound_witness :
    (start_process envMiss [] "reading/read.py" =
      ([], [Event.speak ("Module " ++ "reading/read.py" ++ " not found."),
            Event.log "MAIN" "reading/read.py" "Missing module"])) ∧
    (loopStep envMiss [] (some "please read this")).2.2 =
      LoopResult.continueLoop :=
  ⟨(C6_missing_target_notfound envMiss [] "reading/read.py" rfl).1,
   (C6_missing_target_notfound envMiss [] "reading/read.py" rfl).2
     "please read this" (Or.inl (by decide))⟩

/-- C10: if Popen itself raises, the registry is unchanged (a handle is
appended only after a successful spawn) and start_process returns normally
with only the audit log record and the user notification in its trace, so no
registry entry remains from the failed launch and nothing propagates into
the dispatch loop. -/
theorem C10_launch_failure_registry_unchanged (env : Env) (st : List Nat)
    (rel : String) (hex : env.pathExists (absolute_path rel) = true)
    (hfail : env.popen (absolute_path rel) = none) :
    start_process env st rel =
      (st, [Event.log "MAIN" rel ("Launch error: " ++ env.popenErr),
            Event.speak "Could not launch module."]) := by
  simp [start_process, hex, hfail]

theorem C10_launch_failure_registry_unchanged_witness :
    start_process envFail [] "reading/read.py" =
      ([], [Event.log "MAIN" "reading/read.py"
              ("Launch error: " ++ "OSError"),
            Event.speak "Could not launch module."]) :=
  C10_launch_failure_registry_unchanged envFail [] "reading/read.py" rfl rfl

/-- C2: kill_all_processes is idempotent and safe to repeat: on an empty
registry it performs no termination work and returns without error; every
registered handle receives terminate, a 200 ms grace sleep, then an
unconditional kill as one contiguous block of the trace; the registry clear
happens only after every handle has been killed; and a repeated call yields
exactly one termination sequence per worker with no termination event at all
from the second call. -/
theorem C2_stopAll_idempotent (env : Env) (st : List Nat) (hnd : st.Nodup) :
    (kill_all_processes env []).1 = [] ∧
    (∀ e ∈ (kill_all_processes env []).2, isTermination e = false) ∧
    (∀ p ∈ st, ∃ l r, (kill_all_processes env st).2 = l ++ killOne p ++ r) ∧
    (kill_all_processes env st).1 = [] ∧
    (∃ l r, (kill_all_processes env st).2 = l ++ Event.clearRegistry :: r ∧
      ∀ p ∈ st, Event.kill p ∈ l) ∧
    ∀ p ∈ st,
      ((kill_all_processes env st).2 ++
        (kill_all_processes env (kill_all_processes env st).1).2).count
          (Event.terminate p) = 1 ∧
      ((kill_all_processes env st).2 ++
        (kill_all_processes env (kill_all_processes env st).1).2).count
          (Event.kill p) = 1 := by
  refine ⟨rfl, ?_, ?_, rfl, ?_, ?_⟩
  · intro e he
    by_cases hc : env.cv2Available
    · simp [kill_all_processes, hc] at he
      rcases he with rfl | rfl | rfl | rfl <;> rfl
    · simp [kill_all_processes, hc] at he
      rcases he with rfl | rfl | rfl <;> rfl
  · intro p hp
    obtain ⟨l, r, hl⟩ := killOne_flatMap_decomp st p hp
    refine ⟨[Event.print "[STOP] Killing all subprocesses..."] ++ l,
            r ++ ([Event.clearRegistry]
              ++ (if env.cv2Available then [Event.destroyAllWindows] else [])
              ++ [Event.print "[STOP] All subprocesses terminated."]), ?_⟩
    simp [kill_all_processes, hl, List.append_assoc]
  · refine ⟨[Event.print "[STOP] Killing all subprocesses..."]
        ++ st.flatMap killOne,
      (if env.cv2Available then [Event.destroyAllWindows] else [])
        ++ [Event.print "[STOP] All subprocesses terminated."], ?_, ?_⟩
    · simp [kill_all_processes, List.append_assoc]
    · intro p hp
      exact List.mem_append.mpr (Or.inr
        (List.mem_flatMap.mpr ⟨p, hp, by simp [killOne]⟩))
  · intro p hp
    have h1 : st.count p = 1 := List.count_eq_one_of_mem hnd hp
    constructor
    · rw [List.count_append, count_terminate_killall, count_terminate_killall]
      simp [kill_all_processes, h1]
    · rw [List.count_append, count_kill_killall, count_kill_killall]
      simp [kill_all_processes, h1]

theorem C2_stopAll_idempotent_witness :
    (kill_all_processes envA []).1 = [] ∧
    (∃ l r, (kill_all_processes envA [7]).2 = l ++ killOne 7 ++ r) ∧
    ((kill_all_processes envA [7]).2 ++
      (kill_all_processes envA (kill_all_processes envA [7]).1).2).count
        (Event.terminate 7) = 1 :=
  ⟨(C2_stopAll_idempotent envA [7] (by decide)).1,
   (C2_stopAll_idempotent envA [7] (by decide)).2.2.1 7 (by decide),
   ((C2_stopAll_idempotent envA [7] (by decide)).2.2.2.2.2 7 (by decide)).1⟩

/-- C5 counterexample: on transcript "quit please" with worker 5 registered,
the farewell speech Goodbye occurs in the iteration trace strictly before
the stopAll work: both events occur, and the index of the farewell is
smaller than the index of the terminate call to worker 5, so stopAll is not
called before the farewell notification is emitted. -/
theorem C5_counterexample_farewell_first :
    (Event.speak "Goodbye.") ∈ (loopStep envA [5] (some "quit please")).2.1 ∧
    (Event.terminate 5) ∈ (loopStep envA [5] (some "quit please")).2.1 ∧
    (loopStep envA [5] (some "quit please")).2.1.findIdx
        (fun e => e == Event.speak "Goodbye.")
      < (loopStep envA [5] (some "quit please")).2.1.findIdx
        (fun e => e == Event.terminate 5) :=
  ⟨by decide, by decide, by decide⟩

/-- C5 amended: when the classified command is Exit, the dispatch loop first
emits the farewell notification, then calls kill_all_processes
synchronously, then transitions to the stopped state: the iteration trace is
the heard print, then the Goodbye speech, then the whole stopAll trace, the
registry ends empty, and the loop ends. -/
theorem C5_amended_farewell_then_stop (env : Env) (st : List Nat)
    (t : Option String) (hc : classify t = Command.exitCmd) :
    (loopStep env st t).1 = [] ∧
    (loopStep env st t).2.2 = LoopResult.stopped ∧
    ∃ msg, (loopStep env st t).2.1 =
      Event.print msg :: Event.speak "Goodbye." ::
        (kill_all_processes env st).2 := by
  cases t with
  | none => simp [classify] at hc
  | some c0 =>
    by_cases he : c0.data.isEmpty = true
    · simp [classify, he] at hc
    · have he' : c0.data.isEmpty = false := eq_false_of_ne_true he
      cases hr : containsSub (pyStrip (pyLower c0)) "read"
      · cases hd : (containsSub (pyStrip (pyLower c0)) "detect"
            || containsSub (pyStrip (pyLower c0)) "object")
        · cases hq : (containsSub (pyStrip (pyLower c0)) "exit"
              || containsSub (pyStrip (pyLower c0)) "quit")
          · simp [classify, he', hr, hd, hq] at hc
          · refine ⟨?_, ?_,
              ⟨"[MAIN] Heard: " ++ pyStrip (pyLower c0), ?_⟩⟩ <;>
              simp [loopStep, he', hr, hd, hq, kill_all_processes]
        · simp [classify, he', hr, hd] at hc
      · simp [classify, he', hr] at hc

theorem C5_amended_farewell_then_stop_witness :
    (loopStep envA [5] (some "quit please")).1 = [] ∧
    (loopStep envA [5] (some "quit please")).2.2 = LoopResult.stopped ∧
    ∃ msg, (loopStep envA [5] (some "quit please")).2.1 =
      Event.print msg :: Event.speak "Goodbye." ::
        (kill_all_processes envA [5]).2 :=
  C5_amended_farewell_then_stop envA [5] (some "quit please") (by decide)

/-- C7: however many times the ESC trigger fires (at least once, callbacks
processed sequentially by the keyboard listener thread), the shutdown
sequence runs exactly once: the combined trace holds exactly one os._exit
event, placed last, exactly one terminate and one kill per registered
worker, and the registry ends empty; re-entry never happens because
os._exit terminates the process as the last step of the first firing. -/
theorem C7_emergency_exactly_once (env : Env) (st : List Nat) (n : Nat)
    (hn : 0 < n) (hnd : st.Nodup) :
    (processTriggers env st n).2.count (Event.exitProcess 0) = 1 ∧
    (processTriggers env st n).2.getLast? = some (Event.exitProcess 0) ∧
    (processTriggers env st n).1 = [] ∧
    ∀ p ∈ st, (processTriggers env st n).2.count (Event.terminate p) = 1 ∧
      (processTriggers env st n).2.count (Event.kill p) = 1 := by
  rcases n with _ | m
  · exact absurd hn (by simp)
  · have hred : processTriggers env st (m + 1) = emergency_stop env st := by
      simp [processTriggers, reachedExit_emergency]
    rw [hred]
    refine ⟨count_exit_emergency env st, last_emergency env st, rfl, ?_⟩
    intro p hp
    have h1 : st.count p = 1 := List.count_eq_one_of_mem hnd hp
    exact ⟨by rw [count_terminate_emergency, h1],
           by rw [count_kill_emergency, h1]⟩

theorem C7_emergency_exactly_once_witness :
    (processTriggers envA [7] 2).2.count (Event.exitProcess 0) = 1 ∧
    (processTriggers envA [7] 2).2.getLast? = some (Event.exitProcess 0) ∧
    (processTriggers envA [7] 2).1 = [] ∧
    (processTriggers envA [7] 2).2.count (Event.terminate 7) = 1 :=
  ⟨(C7_emergency_exactly_once envA [7] 2 (by decide) (by decide)).1,
   (C7_emergency_exactly_once envA [7] 2 (by decide) (by decide)).2.1,
   (C7_emergency_exactly_once envA [7] 2 (by decide) (by decide)).2.2.1,
   ((C7_emergency_exactly_once envA [7] 2 (by decide) (by decide)).2.2.2
      7 (by decide)).1⟩

/-- C8: the emergency-stop path runs entirely on the listener thread over
the shared registry: from every system state, including those where the
dispatch loop is blocked in listen() or waiting on a running worker, a
single emergencyInterrupt clears the registry, kills every registered
worker, and reaches os._exit with status 0, while leaving the main thread
control state untouched: it needs no progress from the dispatch loop. -/
theorem C8_emergency_independent_of_loop (env : Env) (s : Sys) :
    (emergencyInterrupt env s).1.exited = some 0 ∧
    (emergencyInterrupt env s).1.registry = [] ∧
    (emergencyInterrupt env s).1.mainSt = s.mainSt ∧
    ∀ p ∈ s.registry, Event.kill p ∈ (emergencyInterrupt env s).2 := by
  refine ⟨exitEvent_emergency env s.registry, rfl, rfl, ?_⟩
  intro p hp
  show Event.kill p ∈ (emergency_stop env s.registry).2
  have h1 := kill_mem_killall env s.registry p hp
  exact List.mem_append.mpr (Or.inl (List.mem_append.mpr (Or.inr h1)))

theorem C8_emergency_independent_of_loop_witness :
    (emergencyInterrupt envA ⟨MainState.blockedInListen, [9], none⟩).1.exited
      = some 0 ∧
    (emergencyInterrupt envA ⟨MainState.blockedInListen, [9], none⟩).1.mainSt
      = MainState.blockedInListen ∧
    Event.kill 9 ∈
      (emergencyInterrupt envA ⟨MainState.blockedInListen, [9], none⟩).2 :=
  ⟨(C8_emergency_independent_of_loop envA
      ⟨MainState.blockedInListen, [9], none⟩).1,
   (C8_emergency_independent_of_loop envA
      ⟨MainState.blockedInListen, [9], none⟩).2.2.1,
   (C8_emergency_independent_of_loop envA
      ⟨MainState.blockedInListen, [9], none⟩).2.2.2 9 (by decide)⟩

/-- C9: the emergency path always terminates the process with status 0:
os._exit(0) is the final event of the emergency trace and its status equals
the graceful exit code, so the process exit code never distinguishes a
forced emergency termination from a graceful Exit shutdown. -/
theorem C9_emergency_exit_code_zero (env : Env) (st : List Nat) :
    exitEvent? (emergency_stop env st).2 = some graceful_exit_code ∧
    (emergency_stop env st).2.getLast? =
      some (Event.exitProcess graceful_exit_code) :=
  ⟨exitEvent_emergency env st, last_emergency env st⟩

end Drishtikon
